import Mathlib

/-!
Shallow embedding of the `lambda-letsencrypt` configuration wizard
(`wizard.py` and `installer/terminal.py`).

The wizard is an interactive, single-threaded program.  Operator input is
modelled as explicit parameters (a stream of input lines for the terminal
primitives, already-selected items for the menu-driven steps), external
provisioning responses (AWS API results) as explicit parameters, and the
shared mutable `global_config` dictionary as a record threaded through the
step functions.  File-system state relevant to packaging is modelled as the
list of regular source files present plus the optional archive at the fixed
destination path.
-/

namespace Wizard

/-! ### File name constants (wizard.py lines 27-32) -/

def acme_challenge_file_name : String := "simple_acme.py"

def lambda_file_name : String := "lambda_function.py"

def zip_file_name : String := "lambda-letsencrypt-dist.zip"

def config_file_template_name : String := "config.py.dist"

def generated_config_file_name : String := "config-wizard.py"

def config_file_name : String := "config.py"

/-! ### Terminal primitives (installer/terminal.py)

`get_input` consumes lines from an input stream.  With `allow_empty = false`
it keeps re-prompting (discarding lines) until a non-empty line arrives;
with `allow_empty = true` the first line is accepted as-is.  It returns the
accepted line together with the unconsumed remainder of the stream, or
`none` if the stream is exhausted before a line is accepted. -/

def get_input (allow_empty : Bool) : List String → Option (String × List String)
  | [] => none
  | s :: rest =>
    if !allow_empty && s.length == 0 then get_input allow_empty rest
    else some (s, rest)

/-- Python's `str.lower()` restricted to its ASCII behaviour (the inputs
compared against are the ASCII literals `"y"` / `"yes"`), written as a
plain map over the character list so it evaluates in the kernel. -/
def pyLower (s : String) : String :=
  String.mk (s.data.map Char.toLower)

/-- The pure decision core of `terminal.get_yn` (terminal.py lines 48-53):
empty response returns the default, a response whose lowercase form is
`"y"` or `"yes"` returns `true`, anything else returns `false`. -/
def interp_yn (default : Bool) (ret : String) : Bool :=
  if ret.length == 0 then default
  else if pyLower ret == "y" || pyLower ret == "yes" then true
  else false

/-- `terminal.get_yn` (terminal.py lines 41-53): reads one line with
`allow_empty = true` (so the very first line of the stream is consumed,
empty or not) and interprets it with `interp_yn`. -/
def get_yn (default : Bool) (stream : List String) : Option (Bool × List String) :=
  match get_input true stream with
  | none => none
  | some (ret, rest) => some (interp_yn default ret, rest)

/-! ### The configuration model

`global_config` is a Python dict; the wizard's initial pass populates every
key before the review menu is reached.  We model it as a total record.
`s3_challenge_bucket` can hold the Python value `None` (when HTTP challenges
are disabled), hence `Option String`; the ELB port is either the literal
int `443` (when the operator typed nothing) or the raw string typed, hence
`Option String` with `none` denoting the default `443`. -/

structure Domain where
  name : String
  route53_zone_id : Option String
  cloudfront_id : Option String
  validation_methods : List String
deriving DecidableEq

structure CFSite where
  cloudfront_id : String
  domains : List String
deriving DecidableEq

structure ELBSite where
  elb_name : String
  elb_port : Option String
  domains : List String
deriving DecidableEq

structure Config where
  namespc : String
  aws_region : String
  use_sns : Bool
  sns_email : String
  create_iam_role : Bool
  iam_role_name : String
  create_s3_cfg_bucket : Bool
  s3_cfg_bucket : String
  use_http_challenges : Bool
  create_s3_challenge_bucket : Bool
  s3_challenge_bucket : Option String
  cf_sites : List CFSite
  cf_domains : List Domain
  elb_sites : List ELBSite
  elb_domains : List Domain
  create_cloudwatch_rule : Bool
deriving DecidableEq

/-! ### The simple steps

Each `wizard_*` function mirrors one step function of `wizard.py`.  The
operator answers collected by the step via the terminal (and any external
answers, such as the chosen region or an existing bucket) are parameters;
the function returns the updated config. -/

/-- `wizard_namespace` (wizard.py lines 218-229): stores the (non-empty)
string the operator entered into `namespace`. -/
def wizard_namespace (ns : String) (cfg : Config) : Config :=
  { cfg with namespc := ns }

/-- `wizard_region` (wizard.py lines 232-238): stores the region chosen
from the fetched region list into `aws_region`. -/
def wizard_region (region : String) (cfg : Config) : Config :=
  { cfg with aws_region := region }

/-- `wizard_sns` (wizard.py lines 241-256): `use_sns` starts `True` and is
cleared when the email entered is empty; both fields are stored. -/
def wizard_sns (email : String) (cfg : Config) : Config :=
  { cfg with use_sns := !(email.length == 0), sns_email := email }

/-- `wizard_iam` (wizard.py lines 275-299): when not auto-creating, the
role name is the one picked from the fetched role list; otherwise it is
derived from the namespace. -/
def wizard_iam (create : Bool) (chosen_role : String) (cfg : Config) : Config :=
  { cfg with
    create_iam_role := create,
    iam_role_name :=
      if !create then chosen_role
      else "lambda-letsencrypt-" ++ cfg.namespc }

/-- `wizard_s3_cfg_bucket` (wizard.py lines 259-272): bucket name derived
from the namespace when creating, otherwise picked from the bucket list. -/
def wizard_s3_cfg_bucket (create : Bool) (chosen_bucket : String) (cfg : Config) : Config :=
  { cfg with
    create_s3_cfg_bucket := create,
    s3_cfg_bucket :=
      if create then "lambda-letsencrypt-config-" ++ cfg.namespc
      else chosen_bucket }

/-- `wizard_challenges` (wizard.py lines 302-342): the challenge-bucket
locals start as `False` / `None` and are only set when HTTP validation is
requested; all three keys are stored unconditionally at the end. -/
def wizard_challenges (use_http : Bool) (create_bucket : Bool) (chosen_bucket : String)
    (cfg : Config) : Config :=
  { cfg with
    use_http_challenges := use_http,
    create_s3_challenge_bucket := if use_http then create_bucket else false,
    s3_challenge_bucket :=
      if use_http then
        some (if create_bucket then "lambda-letsencrypt-challenges-" ++ cfg.namespc
              else chosen_bucket)
      else none }

/-- `wizard_trigger` (wizard.py lines 345-362): stores the yes/no answer. -/
def wizard_trigger (create_rule : Bool) (cfg : Config) : Config :=
  { cfg with create_cloudwatch_rule := create_rule }

/-! ### The CloudFront step (`wizard_cf`, wizard.py lines 145-215)

The operator repeatedly selects a distribution (the same one may be chosen
again — the option list is never pruned) until a blank entry.  For each
alias (CNAME) of the selected distribution the wizard asks for validation
methods; the answers for an alias are a detected Route53 zone id (if any),
the DNS yes/no answer, and the HTTP yes/no answer. -/

structure CFAliasInput where
  dns_name : String
  route53_zone : Option String
  validate_dns : Bool
  validate_http : Bool
deriving DecidableEq

structure CFDistInput where
  dist_id : String
  aliases : List CFAliasInput
deriving DecidableEq

/-- One alias of a selected distribution becomes one `cf_domains` entry
(wizard.py lines 186-210): the record starts with the name and an empty
method list, gains `ROUTE53_ZONE_ID` / `dns-01` when a zone was detected
and DNS validation accepted, and gains `CLOUDFRONT_ID` / `http-01` when
HTTP validation is accepted. -/
def mkCfDomain (dist_id : String) (a : CFAliasInput) : Domain :=
  let d : Domain := { name := a.dns_name, route53_zone_id := none,
                      cloudfront_id := none, validation_methods := [] }
  let d :=
    match a.route53_zone with
    | some zid =>
      if a.validate_dns then
        { d with route53_zone_id := some zid,
                 validation_methods := d.validation_methods ++ ["dns-01"] }
      else d
    | none => d
  if a.validate_http then
    { d with cloudfront_id := some dist_id,
             validation_methods := d.validation_methods ++ ["http-01"] }
  else d

/-- Body of the selection loop of `wizard_cf` for one distribution
(wizard.py lines 186-215): append one domain entry per alias, then append
the site entry. -/
def cfStep (c : Config) (sel : CFDistInput) : Config :=
  { c with
    cf_domains := c.cf_domains ++ sel.aliases.map (mkCfDomain sel.dist_id),
    cf_sites := c.cf_sites ++ [{ cloudfront_id := sel.dist_id,
                                 domains := sel.aliases.map (fun a => a.dns_name) }] }

/-- `wizard_cf` (wizard.py lines 145-215): reset `cf_sites` and
`cf_domains` to empty (lines 148-149), then run the selection loop. -/
def wizard_cf (sels : List CFDistInput) (cfg : Config) : Config :=
  sels.foldl cfStep { cfg with cf_sites := [], cf_domains := [] }

/-! ### The ELB step (`wizard_elb`, wizard.py lines 74-142) -/

structure ELBZoneSel where
  zone_name : String
  zone_id : String
deriving DecidableEq

structure ELBInput where
  elb_name : String
  port_input : String
  zones : List ELBZoneSel
deriving DecidableEq

/-- Inner zone-selection loop for one load balancer (wizard.py lines
117-135): a zone whose name is already in the local `domains` list is
skipped (`continue`); otherwise the name is appended to `domains` and a
DNS-validated domain entry is produced. -/
def elbZoneStep (acc : List String × List Domain) (z : ELBZoneSel) :
    List String × List Domain :=
  if z.zone_name ∈ acc.1 then acc
  else (acc.1 ++ [z.zone_name],
        acc.2 ++ [{ name := z.zone_name, route53_zone_id := some z.zone_id,
                    cloudfront_id := none, validation_methods := ["dns-01"] }])

def elbInner (zones : List ELBZoneSel) : List String × List Domain :=
  zones.foldl elbZoneStep ([], [])

/-- Body of the ELB selection loop for one load balancer (wizard.py lines
106-142): empty port input falls back to the integer `443` (modelled as
`none`), the zone loop runs from an empty local `domains` list, and the
site entry is appended. -/
def elbStep (c : Config) (sel : ELBInput) : Config :=
  let inner := elbInner sel.zones
  { c with
    elb_domains := c.elb_domains ++ inner.2,
    elb_sites := c.elb_sites ++
      [{ elb_name := sel.elb_name,
         elb_port := if sel.port_input.length == 0 then none else some sel.port_input,
         domains := inner.1 }] }

/-- `wizard_elb` (wizard.py lines 74-142): reset `elb_sites` and
`elb_domains` to empty (lines 84-85), then run the selection loop. -/
def wizard_elb (sels : List ELBInput) (cfg : Config) : Config :=
  sels.foldl elbStep { cfg with elb_sites := [], elb_domains := [] }

/-! ### Step registry and review menu (wizard.py lines 568-630)

The nine step functions, tagged.  `StepId.elbCfg` names `wizard_elb`; note
that the review menu below never maps to it (wizard.py line 615 stores
`wizard_cf` under the prompt "Elastic Load Balancers"). -/

inductive StepId where
  | nsStep | regionStep | snsStep | iamStep | s3cfgStep
  | challengesStep | cfStepId | elbStepId | triggerStep
deriving DecidableEq

/-- One step invocation: the step together with the operator/external
answers it consumes. -/
inductive StepInput where
  | nsA (ns : String)
  | regionA (region : String)
  | snsA (email : String)
  | iamA (create : Bool) (chosen_role : String)
  | s3cfgA (create : Bool) (chosen_bucket : String)
  | challengesA (use_http create_bucket : Bool) (chosen_bucket : String)
  | cfA (sels : List CFDistInput)
  | elbA (sels : List ELBInput)
  | triggerA (create_rule : Bool)
deriving DecidableEq

/-- Which step an input drives. -/
def StepInput.step : StepInput → StepId
  | .nsA _ => .nsStep
  | .regionA _ => .regionStep
  | .snsA _ => .snsStep
  | .iamA _ _ => .iamStep
  | .s3cfgA _ _ => .s3cfgStep
  | .challengesA _ _ _ => .challengesStep
  | .cfA _ => .cfStepId
  | .elbA _ => .elbStepId
  | .triggerA _ => .triggerStep

/-- Dispatch to the step functions of wizard.py. -/
def runStep : StepInput → Config → Config
  | .nsA ns => wizard_namespace ns
  | .regionA r => wizard_region r
  | .snsA e => wizard_sns e
  | .iamA c r => wizard_iam c r
  | .s3cfgA c b => wizard_s3_cfg_bucket c b
  | .challengesA u c b => wizard_challenges u c b
  | .cfA sels => wizard_cf sels
  | .elbA sels => wizard_elb sels
  | .triggerA b => wizard_trigger b

/-- The review/edit menu `cfg_menu` of `wizard` (wizard.py lines 607-618):
`(selector, prompt, step)` with `none` standing for the Python `None`
returned by the "Done" entry.  Line 615 of the source stores `wizard_cf` —
not `wizard_elb` — under selector 7. -/
def cfg_menu : List (Nat × String × Option StepId) :=
  [ (0, "Namespace", some .nsStep),
    (1, "AWS Region", some .regionStep),
    (2, "SNS", some .snsStep),
    (3, "IAM", some .iamStep),
    (4, "S3 Config", some .s3cfgStep),
    (5, "Challenges", some .challengesStep),
    (6, "CloudFront", some .cfStepId),
    (7, "Elastic Load Balancers", some .cfStepId),
    (8, "Lambda function trigger", some .triggerStep),
    (9, "Done", none) ]

/-- `terminal.get_selection` applied to the review menu: the first option
whose selector (printed as a decimal numeral) matches the typed choice is
returned; an unmatched choice re-prompts (modelled as `none`, since the
menu disallows empty input). -/
def menuSelect (choice : String) : Option (Option StepId) :=
  (cfg_menu.find? (fun item => choice == toString item.1)).map (fun item => item.2.2)

/-! ### Packaging (`create_lambda_zip`, wizard.py lines 518-552)

The file system is the list of regular files present in the working
directory; the archive at the fixed destination `zip_file_name` is
`Option (List String)` — `none` when no file exists there, `some members`
when a zip file (with the given member names, in order) exists.

Control flow of the source: the destination is unconditionally removed
(`os.remove`, `OSError` ignored); a missing generated config aborts before
any archive is opened; otherwise `ZipFile(mode 'w')` creates an empty
archive at the destination, the two fixed sources are added in order, the
generated config is added under the member name `config.py`, and — success
or not — the `finally` block closes the archive, leaving whatever members
were added on disk.  The boolean result is `False` iff an add raised. -/

def create_lambda_zip (dest0 : Option (List String)) (files : List String) :
    Bool × Option (List String) :=
  let _ := dest0
  let dest : Option (List String) := none
  if generated_config_file_name ∈ files then
    let added : Bool × List String :=
      if lambda_file_name ∈ files then
        if acme_challenge_file_name ∈ files then
          (true, [lambda_file_name, acme_challenge_file_name] ++ [config_file_name])
        else (false, [lambda_file_name])
      else (false, [])
    (added.1, some added.2)
  else (false, dest)

/-! ### Serialization of domain and site lists

`wizard_save_config` serializes `cf_domains + elb_domains` and
`cf_sites + elb_sites` with `json.dumps(..., indent=4)` (wizard.py lines
464-467).  Python dicts iterate in insertion order, so the encoding is a
deterministic function of the lists; we model it as a single-line JSON
printer (the `indent=4` whitespace layout and string escaping are
abstracted — no claim depends on them).  Key order follows the insertion
order of the CloudFront path; the ELB path inserts `ROUTE53_ZONE_ID`
before `VALIDATION_METHODS`, a difference in layout only, irrelevant to
every property proved below. -/

def jsonStr (s : String) : String := "\"" ++ s ++ "\""

def jsonStrList (l : List String) : String :=
  "[" ++ String.intercalate ", " (l.map jsonStr) ++ "]"

def jsonDomain (d : Domain) : String :=
  "\x7b\"DOMAIN\": " ++ jsonStr d.name ++
  ", \"VALIDATION_METHODS\": " ++ jsonStrList d.validation_methods ++
  (match d.route53_zone_id with
   | some z => ", \"ROUTE53_ZONE_ID\": " ++ jsonStr z
   | none => "") ++
  (match d.cloudfront_id with
   | some c => ", \"CLOUDFRONT_ID\": " ++ jsonStr c
   | none => "") ++ "\x7d"

def jsonDomains (l : List Domain) : String :=
  "[" ++ String.intercalate ", " (l.map jsonDomain) ++ "]"

def jsonCFSite (s : CFSite) : String :=
  "\x7b\"CLOUDFRONT_ID\": " ++ jsonStr s.cloudfront_id ++
  ", \"DOMAINS\": " ++ jsonStrList s.domains ++ "\x7d"

def jsonELBSite (s : ELBSite) : String :=
  "\x7b\"ELB_NAME\": " ++ jsonStr s.elb_name ++
  ", \"ELB_PORT\": " ++ (match s.elb_port with
                         | none => "443"
                         | some p => jsonStr p) ++
  ", \"DOMAINS\": " ++ jsonStrList s.domains ++ "\x7d"

def jsonSites (cf : List CFSite) (elbs : List ELBSite) : String :=
  "[" ++ String.intercalate ", " (cf.map jsonCFSite ++ elbs.map jsonELBSite) ++ "]"

/-! ### Template rendering (`wizard_save_config`, wizard.py lines 408-474)

`string.Template.substitute` is strict: a placeholder in the template with
no entry in the mapping raises `KeyError`.  Python renders the value
`None` as the string `"None"`. -/

def pyStr : Option String → String
  | none => "None"
  | some s => s

/-- The SNS ARN actually obtained: the topic-creation call only happens
when the notification email is non-empty (wizard.py line 420), and a
falsy result (`False` or `None`) leaves the template variable `None`. -/
def effective_sns_arn (cfg : Config) (sns_result : Option String) : Option String :=
  if cfg.sns_email.length == 0 then none else sns_result

/-- The `templatevars` mapping exactly as built by `wizard_save_config`
(wizard.py lines 410-467), in dict insertion order: `SNS_ARN` and
`NOTIFY_EMAIL` start as `None` and are overwritten only when topic
creation succeeded; `S3_CHALLENGE_BUCKET` renders the Python `None` held
in the config when HTTP challenges are disabled. -/
def templatevars (cfg : Config) (sns_result : Option String) : List (String × String) :=
  let arn := effective_sns_arn cfg sns_result
  [ ("SNS_ARN", pyStr arn),
    ("NOTIFY_EMAIL", if arn.isSome then cfg.sns_email else "None"),
    ("AWS_REGION", cfg.aws_region),
    ("S3_CONFIG_BUCKET", cfg.s3_cfg_bucket),
    ("S3_CHALLENGE_BUCKET", pyStr cfg.s3_challenge_bucket),
    ("DOMAINS", jsonDomains (cfg.cf_domains ++ cfg.elb_domains)),
    ("SITES", jsonSites cfg.cf_sites cfg.elb_sites) ]

/-- A template is literal text interleaved with `$NAME` placeholders. -/
inductive Tok where
  | lit (s : String)
  | ph (name : String)
deriving DecidableEq

def lookupVar (vars : List (String × String)) (n : String) : Option String :=
  (vars.find? (fun kv => kv.1 == n)).map (fun kv => kv.2)

/-- Strict substitution: `none` models the `KeyError` raised by
`Template.substitute` on an unknown placeholder. -/
def render : List Tok → List (String × String) → Option String
  | [], _ => some ""
  | .lit s :: ts, vars => (render ts vars).map (fun r => s ++ r)
  | .ph n :: ts, vars =>
    match lookupVar vars n with
    | none => none
    | some v => (render ts vars).map (fun r => v ++ r)

/-! ### The finalize stage (`wizard_save_config`, wizard.py lines 408-515)

External call results are parameters; the provisioning actions performed,
with their printed success/failure markers, are collected in an event
trace.  `s3.create_bucket`, `s3.create_web_bucket` and `iam.configure`
have no checked result in the source (a success marker is printed
unconditionally). -/

structure ExtCalls where
  sns_result : Option String
  create_function_ok : Bool
  put_rule_ok : Bool
deriving DecidableEq

inductive FinEvent where
  | snsCreate (ok : Bool)
  | createCfgBucket
  | createChallengeBucket
  | createIamRole
  | writeConfig
  | zipCreate (ok : Bool)
  | uploadFunction (ok : Bool)
  | createTrigger (ok : Bool)
deriving DecidableEq

structure SaveResult where
  events : List FinEvent
  configWritten : Option String
  zipDest : Option (List String)
deriving DecidableEq

/-- The provisioning events of the first half of `wizard_save_config`
(wizard.py lines 418-459): conditional SNS topic creation (with its
printed marker), conditional bucket creations, conditional role
creation.  None of them aborts the stage. -/
def preEvents (cfg : Config) (ext : ExtCalls) : List FinEvent :=
  (if cfg.sns_email.length > 0 then [.snsCreate ext.sns_result.isSome] else []) ++
  (if cfg.create_s3_cfg_bucket then [.createCfgBucket] else []) ++
  (if cfg.create_s3_challenge_bucket then [.createChallengeBucket] else []) ++
  (if cfg.create_iam_role then [.createIamRole] else [])

/-- `wizard_save_config` (wizard.py lines 408-515).  Control flow of the
source: SNS topic creation (marker `✓`/`✗`, no abort on failure — the
code falls through with the template variables left `None`); optional
bucket creations and IAM role creation; template substitution and writing
of the generated config file; `create_lambda_zip` (its `False` aborts);
function upload (falsy result prints `✗` and aborts); optional trigger
creation (falsy result prints `✗` and aborts).  `src_files` are the
regular files present before the config file is written; `tmpl` is the
parsed `config.py.dist`; `dest0` is the pre-existing archive state. -/
def wizard_save_config (cfg : Config) (ext : ExtCalls) (tmpl : List Tok)
    (src_files : List String) (dest0 : Option (List String)) : SaveResult :=
  let pre := preEvents cfg ext
  match render tmpl (templatevars cfg ext.sns_result) with
  | none =>
    { events := pre, configWritten := none, zipDest := dest0 }
  | some rendered =>
    let files := src_files ++ [generated_config_file_name]
    let zipRes := create_lambda_zip dest0 files
    let pre := pre ++ [.writeConfig, .zipCreate zipRes.1]
    if !zipRes.1 then
      { events := pre, configWritten := some rendered, zipDest := zipRes.2 }
    else
      let pre := pre ++ [.uploadFunction ext.create_function_ok]
      if !ext.create_function_ok then
        { events := pre, configWritten := some rendered, zipDest := zipRes.2 }
      else if cfg.create_cloudwatch_rule then
        { events := pre ++ [.createTrigger ext.put_rule_ok],
          configWritten := some rendered, zipDest := zipRes.2 }
      else
        { events := pre, configWritten := some rendered, zipDest := zipRes.2 }

/-! ### Characterizing the CF and ELB folds -/

/-- The `cf_domains` entries produced by one full run of the CloudFront
step with the given selections. -/
def cfDomainsOf (sels : List CFDistInput) : List Domain :=
  (sels.map (fun s => s.aliases.map (mkCfDomain s.dist_id))).flatten

/-- The `cf_sites` entries produced by one full run of the CloudFront
step with the given selections. -/
def cfSitesOf (sels : List CFDistInput) : List CFSite :=
  sels.map (fun s => { cloudfront_id := s.dist_id,
                       domains := s.aliases.map (fun a => a.dns_name) })

/-- The `elb_domains` entries produced by one full run of the ELB step. -/
def elbDomainsOf (sels : List ELBInput) : List Domain :=
  (sels.map (fun s => (elbInner s.zones).2)).flatten

/-- The `elb_sites` entries produced by one full run of the ELB step. -/
def elbSitesOf (sels : List ELBInput) : List ELBSite :=
  sels.map (fun s =>
    { elb_name := s.elb_name,
      elb_port := if s.port_input.length == 0 then none else some s.port_input,
      domains := (elbInner s.zones).1 })

/-! ### Field ownership and the frame condition -/

inductive Field where
  | fNamespc | fAwsRegion | fUseSns | fSnsEmail
  | fCreateIamRole | fIamRoleName | fCreateS3CfgBucket | fS3CfgBucket
  | fUseHttpChallenges | fCreateS3ChallengeBucket | fS3ChallengeBucket
  | fCfSites | fCfDomains | fElbSites | fElbDomains | fCreateCloudwatchRule
deriving DecidableEq

def fieldEq (f : Field) (a b : Config) : Prop :=
  match f with
  | .fNamespc => b.namespc = a.namespc
  | .fAwsRegion => b.aws_region = a.aws_region
  | .fUseSns => b.use_sns = a.use_sns
  | .fSnsEmail => b.sns_email = a.sns_email
  | .fCreateIamRole => b.create_iam_role = a.create_iam_role
  | .fIamRoleName => b.iam_role_name = a.iam_role_name
  | .fCreateS3CfgBucket => b.create_s3_cfg_bucket = a.create_s3_cfg_bucket
  | .fS3CfgBucket => b.s3_cfg_bucket = a.s3_cfg_bucket
  | .fUseHttpChallenges => b.use_http_challenges = a.use_http_challenges
  | .fCreateS3ChallengeBucket => b.create_s3_challenge_bucket = a.create_s3_challenge_bucket
  | .fS3ChallengeBucket => b.s3_challenge_bucket = a.s3_challenge_bucket
  | .fCfSites => b.cf_sites = a.cf_sites
  | .fCfDomains => b.cf_domains = a.cf_domains
  | .fElbSites => b.elb_sites = a.elb_sites
  | .fElbDomains => b.elb_domains = a.elb_domains
  | .fCreateCloudwatchRule => b.create_cloudwatch_rule = a.create_cloudwatch_rule

/-- The config fields each step of wizard.py writes. -/
def stepOwns : StepId → List Field
  | .nsStep => [.fNamespc]
  | .regionStep => [.fAwsRegion]
  | .snsStep => [.fUseSns, .fSnsEmail]
  | .iamStep => [.fCreateIamRole, .fIamRoleName]
  | .s3cfgStep => [.fCreateS3CfgBucket, .fS3CfgBucket]
  | .challengesStep => [.fUseHttpChallenges, .fCreateS3ChallengeBucket, .fS3ChallengeBucket]
  | .cfStepId => [.fCfSites, .fCfDomains]
  | .elbStepId => [.fElbSites, .fElbDomains]
  | .triggerStep => [.fCreateCloudwatchRule]

/-- `b` agrees with `a` on every field not owned by step `sid`. -/
def framePreserved (sid : StepId) (a b : Config) : Prop :=
  ∀ f : Field, f ∉ stepOwns sid → fieldEq f a b

/-! ### Concrete inputs used by witnesses and counterexamples -/

/-- The seven placeholder names of the `templatevars` mapping, in dict
insertion order (wizard.py lines 414-416 and 461-467). -/
def placeholder_names : List String :=
  ["SNS_ARN", "NOTIFY_EMAIL", "AWS_REGION", "S3_CONFIG_BUCKET",
   "S3_CHALLENGE_BUCKET", "DOMAINS", "SITES"]

/-- A concrete config as produced by a minimal wizard pass: namespace
`acme`, region `us-east-1`, notifications disabled, everything created
fresh, no distributions or load balancers selected yet. -/
def sampleConfig : Config :=
  { namespc := "acme", aws_region := "us-east-1", use_sns := false,
    sns_email := "", create_iam_role := true,
    iam_role_name := "lambda-letsencrypt-acme", create_s3_cfg_bucket := true,
    s3_cfg_bucket := "lambda-letsencrypt-config-acme",
    use_http_challenges := true, create_s3_challenge_bucket := true,
    s3_challenge_bucket := some "lambda-letsencrypt-challenges-acme",
    cf_sites := [], cf_domains := [], elb_sites := [], elb_domains := [],
    create_cloudwatch_rule := true }

/-- One alias of the distribution `D1`, HTTP validation only. -/
def cexAlias : CFAliasInput :=
  { dns_name := "example.com", route53_zone := none,
    validate_dns := false, validate_http := true }

/-- The distribution `D1` with the single alias `example.com`. -/
def cexDist : CFDistInput := { dist_id := "D1", aliases := [cexAlias] }

/-- The same config with notifications requested, for exercising the
finalize stage. -/
def cexSaveConfig : Config := { sampleConfig with sns_email := "ops@example.com" }

/-- External results: SNS topic creation fails, everything else works. -/
def cexExtSnsFail : ExtCalls :=
  { sns_result := none, create_function_ok := true, put_rule_ok := true }

/-- External results: SNS works, the function upload fails. -/
def cexExtUploadFail : ExtCalls :=
  { sns_result := some "arn:aws:sns:1", create_function_ok := false,
    put_rule_ok := true }

/-- A one-placeholder template. -/
def cexTmpl : List Tok := [Tok.ph "AWS_REGION"]

theorem cfStep_foldl (sels : List CFDistInput) (c : Config) :
    sels.foldl cfStep c =
      { c with cf_domains := c.cf_domains ++ cfDomainsOf sels,
               cf_sites := c.cf_sites ++ cfSitesOf sels } := by
  induction sels generalizing c with
  | nil => simp [cfDomainsOf, cfSitesOf]
  | cons s rest ih =>
    simp [List.foldl_cons, ih, cfStep, cfDomainsOf, cfSitesOf, List.map_cons,
      List.flatten_cons, List.append_assoc]

theorem wizard_cf_eq (sels : List CFDistInput) (cfg : Config) :
    wizard_cf sels cfg =
      { cfg with cf_domains := cfDomainsOf sels, cf_sites := cfSitesOf sels } := by
  simp [wizard_cf, cfStep_foldl]

theorem elbStep_foldl (sels : List ELBInput) (c : Config) :
    sels.foldl elbStep c =
      { c with elb_domains := c.elb_domains ++ elbDomainsOf sels,
               elb_sites := c.elb_sites ++ elbSitesOf sels } := by
  induction sels generalizing c with
  | nil => simp [elbDomainsOf, elbSitesOf]
  | cons s rest ih =>
    simp [List.foldl_cons, ih, elbStep, elbDomainsOf, elbSitesOf, List.map_cons,
      List.flatten_cons, List.append_assoc]

theorem wizard_elb_eq (sels : List ELBInput) (cfg : Config) :
    wizard_elb sels cfg =
      { cfg with elb_domains := elbDomainsOf sels, elb_sites := elbSitesOf sels } := by
  simp [wizard_elb, elbStep_foldl]

/-! ### Small string facts -/

theorem string_length_zero {s : String} (h : s.length = 0) : s = "" := by
  cases s with
  | mk data =>
    cases data with
    | nil => rfl
    | cons c cs => simp [String.length] at h

/-! ## The claims -/

/-- Claim C10: for every yes/no prompt, empty operator input returns the
prompt's stated default; input whose lowercase form is "y" or "yes"
returns `true`; every other non-empty input returns `false`; and exactly
one input line is consumed (no re-prompting), whatever the answer. -/
theorem get_yn_spec (d : Bool) (s : String) (rest : List String) :
    get_yn d (s :: rest) = some (interp_yn d s, rest) ∧
    (s = "" → interp_yn d s = d) ∧
    (pyLower s = "y" ∨ pyLower s = "yes" → interp_yn d s = true) ∧
    (s ≠ "" → pyLower s ≠ "y" → pyLower s ≠ "yes" → interp_yn d s = false) := by
  refine ⟨by simp [get_yn, get_input], ?_, ?_, ?_⟩
  · intro h
    subst h
    rfl
  · intro h
    by_cases hz : s.length = 0
    · have : s = "" := string_length_zero hz
      subst this
      rcases h with h | h <;> exact absurd h (by decide)
    · rcases h with h | h <;> simp [interp_yn, hz, h]
  · intro hne hy hyes
    have hz : ¬ s.length = 0 := fun hz => hne (string_length_zero hz)
    simp [interp_yn, hz, hy, hyes]

/-- Claim C10 witness: the unrecognized non-empty answer "maybe" under a
`True` default yields `false`, consuming one line. -/
theorem get_yn_spec_witness :
    get_yn true ["maybe"] = some (interp_yn true "maybe", []) ∧
    interp_yn true "maybe" = false :=
  ⟨(get_yn_spec true "maybe" []).1,
   (get_yn_spec true "maybe" []).2.2.2 (by decide) (by decide) (by decide)⟩

/-- Claim C9: running the CloudFront step resets `cf_sites`/`cf_domains`
first, and the ELB step resets `elb_sites`/`elb_domains` first, so the
resulting collections are exactly a function of the selections of that
run, independent of whatever the collections held before — re-runs never
accumulate entries. -/
theorem cf_elb_steps_reset (sels : List CFDistInput) (esels : List ELBInput)
    (cfg : Config) :
    (wizard_cf sels cfg).cf_domains = cfDomainsOf sels ∧
    (wizard_cf sels cfg).cf_sites = cfSitesOf sels ∧
    (wizard_elb esels cfg).elb_domains = elbDomainsOf esels ∧
    (wizard_elb esels cfg).elb_sites = elbSitesOf esels := by
  refine ⟨?_, ?_, ?_, ?_⟩ <;> simp [wizard_cf_eq, wizard_elb_eq]

/-- Claim C2: re-running any single step leaves every config field not
owned by that step equal to its value before the call; in particular,
re-running the Region step only changes `aws_region`, so an edit-only-
region pass renders an artifact whose `AWS_REGION` variable is the new
region while the serialized domain and site data is unchanged. -/
theorem runStep_frame (inp : StepInput) (cfg : Config) :
    framePreserved inp.step cfg (runStep inp cfg) ∧
    (∀ (r : String) (arn : Option String),
      lookupVar (templatevars (runStep (.regionA r) cfg) arn) "AWS_REGION" = some r ∧
      lookupVar (templatevars (runStep (.regionA r) cfg) arn) "DOMAINS" =
        lookupVar (templatevars cfg arn) "DOMAINS" ∧
      lookupVar (templatevars (runStep (.regionA r) cfg) arn) "SITES" =
        lookupVar (templatevars cfg arn) "SITES") := by
  constructor
  · cases inp <;>
      (intro f hf
       cases f <;>
         simp_all [runStep, StepInput.step, stepOwns, fieldEq, wizard_namespace,
           wizard_region, wizard_sns, wizard_iam, wizard_s3_cfg_bucket,
           wizard_challenges, wizard_trigger, wizard_cf_eq, wizard_elb_eq])
  · intro r arn
    exact ⟨rfl, rfl, rfl⟩

/-- Claim C6: packaging overwrites whatever archive pre-existed at the
destination (the result is the same for every prior destination state),
and on success — all three sources present — the archive holds exactly
three members, in the fixed order issuance handler, validation helper,
rendered configuration, the last stored under the canonical member name
`config.py`, which differs from its on-disk name `config-wizard.py`. -/
theorem create_lambda_zip_success (dest0 dest0' : Option (List String))
    (files : List String)
    (hcfg : generated_config_file_name ∈ files)
    (hl : lambda_file_name ∈ files)
    (ha : acme_challenge_file_name ∈ files) :
    create_lambda_zip dest0 files =
      (true, some [lambda_file_name, acme_challenge_file_name, config_file_name]) ∧
    create_lambda_zip dest0 files = create_lambda_zip dest0' files ∧
    config_file_name ≠ generated_config_file_name := by
  refine ⟨?_, ?_, by decide⟩ <;> simp [create_lambda_zip, hcfg, hl, ha]

/-- Claim C6 witness: a concrete run with all three sources present and a
stale archive at the destination. -/
theorem create_lambda_zip_success_witness :
    create_lambda_zip (some ["stale.zip-member"])
        [generated_config_file_name, lambda_file_name, acme_challenge_file_name] =
      (true, some [lambda_file_name, acme_challenge_file_name, config_file_name]) :=
  (create_lambda_zip_success (some ["stale.zip-member"]) none
    [generated_config_file_name, lambda_file_name, acme_challenge_file_name]
    (by decide) (by decide) (by decide)).1

/-- Claim C1 counterexample: with the issuance-handler source missing (the
generated config and the validation helper present), packaging fails —
but a partial archive file does exist at the destination path afterwards,
because `ZipFile(mode='w')` already created it and the `finally` block
closes (hence writes) it. -/
theorem create_lambda_zip_partial_cex :
    lambda_file_name ∉ [generated_config_file_name, acme_challenge_file_name] ∧
    (create_lambda_zip none [generated_config_file_name, acme_challenge_file_name]).1
      = false ∧
    (create_lambda_zip none [generated_config_file_name, acme_challenge_file_name]).2
      ≠ none := by
  decide

/-- Claim C1 (amended): if the rendered configuration file is missing the
packaging fails before any archive is opened and no archive exists at the
destination; if the configuration is present but the issuance-handler or
validation-helper source is missing, packaging fails but a partial
archive file is left at the destination path. -/
theorem create_lambda_zip_missing (dest0 : Option (List String)) (files : List String) :
    (generated_config_file_name ∉ files →
      create_lambda_zip dest0 files = (false, none)) ∧
    (generated_config_file_name ∈ files →
      lambda_file_name ∉ files ∨ acme_challenge_file_name ∉ files →
      (create_lambda_zip dest0 files).1 = false ∧
      ((create_lambda_zip dest0 files).2).isSome = true) := by
  constructor
  · intro h
    simp [create_lambda_zip, h]
  · intro hc h
    rcases h with h | h
    · simp [create_lambda_zip, hc, h]
    · by_cases hl : lambda_file_name ∈ files <;>
        simp [create_lambda_zip, hc, h, hl]

/-- Claim C1 (amended) witness: a run with only the generated config
present fails and leaves a (partial, source-less) archive on disk. -/
theorem create_lambda_zip_missing_witness :
    (create_lambda_zip none [generated_config_file_name]).1 = false ∧
    ((create_lambda_zip none [generated_config_file_name]).2).isSome = true :=
  (create_lambda_zip_missing none [generated_config_file_name]).2
    (by decide) (Or.inl (by decide))

/-! ### Helper lemmas for the finalize stage -/

theorem mem_preEvents {cfg : Config} {ext : ExtCalls} {e : FinEvent}
    (h : e ∈ preEvents cfg ext) :
    e = .snsCreate ext.sns_result.isSome ∨ e = .createCfgBucket ∨
    e = .createChallengeBucket ∨ e = .createIamRole := by
  unfold preEvents at h
  split_ifs at h <;> simp_all <;> tauto

theorem createTrigger_not_mem_preEvents (cfg : Config) (ext : ExtCalls) (b : Bool) :
    FinEvent.createTrigger b ∉ preEvents cfg ext := by
  intro h
  rcases mem_preEvents h with h | h | h | h <;> simp_all

theorem uploadFunction_not_mem_preEvents (cfg : Config) (ext : ExtCalls) (b : Bool) :
    FinEvent.uploadFunction b ∉ preEvents cfg ext := by
  intro h
  rcases mem_preEvents h with h | h | h | h <;> simp_all

theorem snsCreate_fail_mem_preEvents {cfg : Config} {ext : ExtCalls}
    (hlen : cfg.sns_email.length > 0) (hnone : ext.sns_result = none) :
    FinEvent.snsCreate false ∈ preEvents cfg ext := by
  unfold preEvents
  simp [hlen, hnone]

/-- Branch enumeration for `wizard_save_config`: its event trace is the
non-aborting prefix followed by one of five suffixes, depending on where
(and whether) the stage stops. -/
theorem save_config_events_cases (cfg : Config) (ext : ExtCalls) (tmpl : List Tok)
    (src_files : List String) (dest0 : Option (List String)) :
    (wizard_save_config cfg ext tmpl src_files dest0).events = preEvents cfg ext ∨
    ((wizard_save_config cfg ext tmpl src_files dest0).events =
      preEvents cfg ext ++ [.writeConfig, .zipCreate false] ∧
      (create_lambda_zip dest0 (src_files ++ [generated_config_file_name])).1 = false) ∨
    ((wizard_save_config cfg ext tmpl src_files dest0).events =
      preEvents cfg ext ++ [.writeConfig, .zipCreate true, .uploadFunction false] ∧
      (create_lambda_zip dest0 (src_files ++ [generated_config_file_name])).1 = true ∧
      ext.create_function_ok = false) ∨
    ((wizard_save_config cfg ext tmpl src_files dest0).events =
      preEvents cfg ext ++ [.writeConfig, .zipCreate true, .uploadFunction true] ∧
      (create_lambda_zip dest0 (src_files ++ [generated_config_file_name])).1 = true ∧
      ext.create_function_ok = true) ∨
    ((wizard_save_config cfg ext tmpl src_files dest0).events =
      preEvents cfg ext ++
        [.writeConfig, .zipCreate true, .uploadFunction true, .createTrigger ext.put_rule_ok] ∧
      (create_lambda_zip dest0 (src_files ++ [generated_config_file_name])).1 = true ∧
      ext.create_function_ok = true) := by
  unfold wizard_save_config
  cases hr : render tmpl (templatevars cfg ext.sns_result) with
  | none => simp
  | some rendered =>
    cases hzr : create_lambda_zip dest0 (src_files ++ [generated_config_file_name]) with
    | mk zb zdest =>
      cases zb with
      | false => simp [hzr]
      | true =>
        cases hcf : ext.create_function_ok with
        | false => simp [hzr, hcf]
        | true =>
          cases hcw : cfg.create_cloudwatch_rule with
          | false => simp [hzr, hcf, hcw]
          | true => simp [hzr, hcf, hcw]

/-! ### Helper lemmas for the template mapping -/

theorem lookupVar_templatevars_isSome (cfg : Config) (r : Option String) :
    ∀ n ∈ placeholder_names, (lookupVar (templatevars cfg r) n).isSome = true := by
  intro n hn
  fin_cases hn <;> rfl

theorem render_total (vars : List (String × String)) (tmpl : List Tok)
    (h : ∀ n, Tok.ph n ∈ tmpl → (lookupVar vars n).isSome = true) :
    (render tmpl vars).isSome = true := by
  induction tmpl with
  | nil => rfl
  | cons t ts ih =>
    cases t with
    | lit s =>
      have := ih (fun n hn => h n (List.mem_cons_of_mem _ hn))
      simpa [render, Option.isSome_map] using this
    | ph n =>
      have hn := h n (List.mem_cons_self _ _)
      obtain ⟨v, hv⟩ := Option.isSome_iff_exists.mp hn
      have := ih (fun m hm => h m (List.mem_cons_of_mem _ hm))
      simp [render, hv, Option.isSome_map, this]

/-- Claim C7: the substitution mapping holds exactly the seven recognized
placeholder names (in dict insertion order); any template whose
placeholders are among those seven renders successfully (so all seven are
available in every render); absent optional values — no SNS topic, no
notification email, no challenge bucket — are rendered as the explicit
`"None"` sentinel, never omitted. -/
theorem templatevars_spec (cfg : Config) (r : Option String) :
    (templatevars cfg r).map Prod.fst = placeholder_names ∧
    ((cfg.sns_email = "" ∨ r = none) →
      lookupVar (templatevars cfg r) "SNS_ARN" = some "None" ∧
      lookupVar (templatevars cfg r) "NOTIFY_EMAIL" = some "None") ∧
    (cfg.s3_challenge_bucket = none →
      lookupVar (templatevars cfg r) "S3_CHALLENGE_BUCKET" = some "None") ∧
    (∀ tmpl : List Tok, (∀ n, Tok.ph n ∈ tmpl → n ∈ placeholder_names) →
      (render tmpl (templatevars cfg r)).isSome = true) := by
  refine ⟨rfl, ?_, ?_, ?_⟩
  · intro h
    have harn : effective_sns_arn cfg r = none := by
      rcases h with h | h
      · simp [effective_sns_arn, h]
      · simp [effective_sns_arn, h]
    have h1 : lookupVar (templatevars cfg r) "SNS_ARN"
        = some (pyStr (effective_sns_arn cfg r)) := rfl
    have h2 : lookupVar (templatevars cfg r) "NOTIFY_EMAIL"
        = some (if (effective_sns_arn cfg r).isSome then cfg.sns_email else "None") := rfl
    rw [h1, h2, harn]
    exact ⟨rfl, rfl⟩
  · intro h
    have h3 : lookupVar (templatevars cfg r) "S3_CHALLENGE_BUCKET"
        = some (pyStr cfg.s3_challenge_bucket) := rfl
    rw [h3, h]
    rfl
  · intro tmpl htmpl
    exact render_total _ _ (fun n hn =>
      lookupVar_templatevars_isSome cfg r n (htmpl n hn))

/-- Claim C7 witness: a disabled-notifications config with a challenge
bucket absent, rendered against a template naming one placeholder. -/
theorem templatevars_spec_witness :
    lookupVar (templatevars { sampleConfig with s3_challenge_bucket := none } none)
        "S3_CHALLENGE_BUCKET" = some "None" ∧
    (render cexTmpl
        (templatevars { sampleConfig with s3_challenge_bucket := none } none)).isSome
      = true :=
  ⟨(templatevars_spec { sampleConfig with s3_challenge_bucket := none } none).2.2.1 rfl,
   (templatevars_spec { sampleConfig with s3_challenge_bucket := none } none).2.2.2
     cexTmpl (by intro n hn; simp [cexTmpl] at hn; simp [hn, placeholder_names])⟩

/-- Claim C8: the rendered artifact is a function of the model alone —
two models agreeing on the placeholder-relevant fields render identically
under any template (in particular, rendering an unmodified model twice
gives byte-identical output) — and the serialized domain and site lists
preserve insertion order: `cf_domains` then `elb_domains`, `cf_sites`
then `elb_sites`, element by element. -/
theorem render_deterministic (M M' : Config) (r : Option String) (tmpl : List Tok)
    (h1 : M.aws_region = M'.aws_region) (h2 : M.sns_email = M'.sns_email)
    (h3 : M.s3_cfg_bucket = M'.s3_cfg_bucket)
    (h4 : M.s3_challenge_bucket = M'.s3_challenge_bucket)
    (h5 : M.cf_domains = M'.cf_domains) (h6 : M.elb_domains = M'.elb_domains)
    (h7 : M.cf_sites = M'.cf_sites) (h8 : M.elb_sites = M'.elb_sites) :
    render tmpl (templatevars M r) = render tmpl (templatevars M' r) ∧
    lookupVar (templatevars M r) "DOMAINS" =
      some ("[" ++ String.intercalate ", "
        ((M.cf_domains ++ M.elb_domains).map jsonDomain) ++ "]") ∧
    lookupVar (templatevars M r) "SITES" =
      some ("[" ++ String.intercalate ", "
        (M.cf_sites.map jsonCFSite ++ M.elb_sites.map jsonELBSite) ++ "]") := by
  have hv : templatevars M r = templatevars M' r := by
    simp [templatevars, effective_sns_arn, h1, h2, h3, h4, h5, h6, h7, h8]
  exact ⟨by rw [hv], rfl, rfl⟩

/-- Claim C8 witness: the sample config rendered twice (the two models
are the same model) gives the same output. -/
theorem render_deterministic_witness :
    render cexTmpl (templatevars sampleConfig none) =
      render cexTmpl (templatevars sampleConfig none) :=
  (render_deterministic sampleConfig sampleConfig none cexTmpl
    rfl rfl rfl rfl rfl rfl rfl rfl).1

/-- Claim C4 counterexample: with a notification email configured and the
SNS topic-creation call failing, the failure marker is printed but the
finalize stage does not abort — bucket creations, role creation, config
rendering, packaging, function upload and trigger registration all still
run after the failure. -/
theorem save_config_sns_failure_cex :
    (wizard_save_config cexSaveConfig cexExtSnsFail cexTmpl
        [lambda_file_name, acme_challenge_file_name] none).events =
      [FinEvent.snsCreate false, FinEvent.createCfgBucket,
       FinEvent.createChallengeBucket, FinEvent.createIamRole,
       FinEvent.writeConfig, FinEvent.zipCreate true,
       FinEvent.uploadFunction true, FinEvent.createTrigger true] := by
  rfl

/-- Claim C4 (amended): a failed SNS topic creation is reported with its
failure marker but finalization continues (the wizard proceeds with
notifications disabled); a packaging failure stops the stage before any
upload or trigger registration; a failed function upload is the last
event — no trigger registration runs after it. -/
theorem save_config_abort_spec (cfg : Config) (ext : ExtCalls) (tmpl : List Tok)
    (src_files : List String) (dest0 : Option (List String)) :
    (cfg.sns_email.length > 0 → ext.sns_result = none →
      FinEvent.snsCreate false ∈
        (wizard_save_config cfg ext tmpl src_files dest0).events) ∧
    (ext.create_function_ok = false →
      ∀ b, FinEvent.createTrigger b ∉
        (wizard_save_config cfg ext tmpl src_files dest0).events) ∧
    ((create_lambda_zip dest0 (src_files ++ [generated_config_file_name])).1 = false →
      ∀ b, FinEvent.uploadFunction b ∉
          (wizard_save_config cfg ext tmpl src_files dest0).events ∧
        FinEvent.createTrigger b ∉
          (wizard_save_config cfg ext tmpl src_files dest0).events) := by
  have hcases := save_config_events_cases cfg ext tmpl src_files dest0
  refine ⟨?_, ?_, ?_⟩
  · intro hlen hnone
    have hmem := snsCreate_fail_mem_preEvents hlen hnone
    rcases hcases with h | ⟨h, _⟩ | ⟨h, _, _⟩ | ⟨h, _, _⟩ | ⟨h, _, _⟩ <;>
      simp [h, hmem]
  · intro hcf b
    rcases hcases with h | ⟨h, _⟩ | ⟨h, _, _⟩ | ⟨h, _, hok⟩ | ⟨h, _, hok⟩ <;>
      simp_all [createTrigger_not_mem_preEvents]
  · intro hz b
    have hup := uploadFunction_not_mem_preEvents cfg ext b
    have htr := createTrigger_not_mem_preEvents cfg ext b
    rcases hcases with h | ⟨h, _⟩ | ⟨h, hzt, _⟩ | ⟨h, hzt, _⟩ | ⟨h, hzt, _⟩ <;>
      simp_all

/-- Claim C4 (amended) witness: concrete runs — SNS failing with
everything else in place, and a failed upload with a trigger
requested. -/
theorem save_config_abort_spec_witness :
    FinEvent.snsCreate false ∈
      (wizard_save_config cexSaveConfig cexExtSnsFail cexTmpl
        [lambda_file_name, acme_challenge_file_name] none).events ∧
    FinEvent.createTrigger true ∉
      (wizard_save_config cexSaveConfig cexExtUploadFail cexTmpl
        [lambda_file_name, acme_challenge_file_name] none).events :=
  ⟨(save_config_abort_spec cexSaveConfig cexExtSnsFail cexTmpl
      [lambda_file_name, acme_challenge_file_name] none).1 (by decide) rfl,
   (save_config_abort_spec cexSaveConfig cexExtUploadFail cexTmpl
      [lambda_file_name, acme_challenge_file_name] none).2.1 rfl true⟩

/-- Claim C5 (code defect): both review-menu entries 6 ("CloudFront") and
7 ("Elastic Load Balancers") dispatch to the CloudFront step function
(wizard.py line 615 stores `wizard_cf` under the ELB prompt), the
CloudFront step is not the ELB step, and running it can never touch the
ELB collections — so the ELB step is unreachable from the review menu. -/
theorem elb_menu_entry_runs_cf_step :
    menuSelect "7" = some (some StepId.cfStepId) ∧
    menuSelect "6" = some (some StepId.cfStepId) ∧
    (cfg_menu.find? (fun item => "7" == toString item.1)).map (fun item => item.2.1)
      = some "Elastic Load Balancers" ∧
    StepId.cfStepId ≠ StepId.elbStepId ∧
    (∀ (sels : List CFDistInput) (cfg : Config),
      (runStep (StepInput.cfA sels) cfg).elb_domains = cfg.elb_domains ∧
      (runStep (StepInput.cfA sels) cfg).elb_sites = cfg.elb_sites) := by
  refine ⟨rfl, rfl, rfl, by decide, ?_⟩
  intro sels cfg
  constructor <;> simp [runStep, wizard_cf_eq]

/-- Claim C3 counterexample: selecting the same distribution twice in one
CloudFront-step run (the option list is never pruned) yields `cf_domains`
holding the domain name `example.com` twice — the combined domain
collection is not duplicate-free, and the second addition was neither
rejected nor deduplicated. -/
theorem domain_uniqueness_cex :
    ((wizard_cf [cexDist, cexDist] sampleConfig).cf_domains ++
        (wizard_cf [cexDist, cexDist] sampleConfig).elb_domains).map
        (fun d => d.name) = ["example.com", "example.com"] ∧
    ¬ (((wizard_cf [cexDist, cexDist] sampleConfig).cf_domains ++
        (wizard_cf [cexDist, cexDist] sampleConfig).elb_domains).map
        (fun d => d.name)).Nodup := by
  constructor
  · rfl
  · decide

/-- Claim C3 (amended): deduplication exists only within a single load
balancer's selection in the ELB step — there a zone name already chosen
is skipped, so the per-site domain list is duplicate-free and the domain
entries generated for that site have pairwise-distinct names.  No
deduplication applies across sites, across the two collections, or in
the CloudFront step. -/
theorem elb_inner_nodup (zones : List ELBZoneSel) :
    (elbInner zones).1.Nodup ∧
    ((elbInner zones).2.map (fun d => d.name)) = (elbInner zones).1 ∧
    ((elbInner zones).2.map (fun d => d.name)).Nodup := by
  have main : ∀ (zs : List ELBZoneSel) (acc : List String × List Domain),
      acc.1.Nodup → acc.2.map (fun d => d.name) = acc.1 →
      ((zs.foldl elbZoneStep acc).1.Nodup ∧
       (zs.foldl elbZoneStep acc).2.map (fun d => d.name)
         = (zs.foldl elbZoneStep acc).1) := by
    intro zs
    induction zs with
    | nil => intro acc h1 h2; exact ⟨h1, h2⟩
    | cons z rest ih =>
      intro acc h1 h2
      simp only [List.foldl_cons]
      by_cases hm : z.zone_name ∈ acc.1
      · have he : elbZoneStep acc z = acc := by simp [elbZoneStep, hm]
        rw [he]
        exact ih acc h1 h2
      · have he : elbZoneStep acc z =
            (acc.1 ++ [z.zone_name],
             acc.2 ++ [{ name := z.zone_name, route53_zone_id := some z.zone_id,
                         cloudfront_id := none, validation_methods := ["dns-01"] }]) := by
          simp [elbZoneStep, hm]
        rw [he]
        apply ih
        · simp [List.nodup_append, h1, hm]
        · simp [h2]
  have h := main zones ([], []) (by simp) (by simp)
  exact ⟨h.1, h.2, h.2 ▸ h.1⟩

end Wizard
